import Mathlib

/-!
Verification development for the cybersecurity-assessment-tool repository.

The repository's core is an AI-orchestration pipeline
(src/cybersecurity_assessment_tool/api/services/ai_generation_service.py and
the earlier draft src/backend/api/ai_service.py):
context compilation, a retrying generation client, a risk-extraction stage and
an atomic persistence step.  This file gives a shallow embedding of that code:
Python functions become Lean functions, the external generation capability
becomes an oracle parameter (attempt number to outcome), stdlib collaborators
(json.loads / json.dumps, Django transactions) are modelled explicitly, and
Python exceptions become an explicit exceptional result constructor.

Modelling notes kept throughout:
- json.loads / json.dumps are modelled by an executable parser and printer for
  the JSON fragment the repository exchanges: null, booleans, integers,
  strings with simple escapes, arrays, objects.  Floats, \u escapes and the
  leading-zero restriction are outside the modelled fragment.
- Python's json.dumps with indent=2 is modelled by dumpsInd below, matching the
  expected strings in src/backend/api/tests.py.
-/

/-- JSON values as exchanged by the pipeline (modelling Python dict/list/str/
int/bool/None after json.loads). Object member lists keep insertion order;
lookup takes the last binding, matching Python dict construction where a later
duplicate key overwrites an earlier one. -/
inductive Json where
  | null : Json
  | bool (b : Bool) : Json
  | num (n : Int) : Json
  | str (s : String) : Json
  | arr (xs : List Json) : Json
  | obj (members : List (String × Json)) : Json

/-- Opening brace character, written via its code point. -/
def lbrace : Char := Char.ofNat 123

/-- Closing brace character, written via its code point. -/
def rbrace : Char := Char.ofNat 125

/-- Python dict lookup over an insertion-ordered member list: the last binding
for a key wins (later duplicate keys overwrite earlier ones). -/
def lookupLast (members : List (String × Json)) (k : String) : Option Json :=
  members.foldl (fun acc kv => if kv.1 = k then some kv.2 else acc) none

/-- Whitespace skipping, as in Python's json lexer. -/
def skipWs : List Char → List Char
  | c :: cs => if c = ' ' ∨ c = '\n' ∨ c = '\t' ∨ c = '\r' then skipWs cs else c :: cs
  | [] => []

/-- Reads the body of a JSON string literal after the opening quote, handling
the simple escapes used by the repository's payloads. Returns the decoded
characters and the remaining input after the closing quote. -/
def readStrBody : Nat → List Char → Option (List Char × List Char)
  | 0, _ => none
  | _ + 1, [] => none
  | fuel + 1, c :: cs =>
    if c = '"' then some ([], cs)
    else if c = '\\' then
      match cs with
      | [] => none
      | e :: cs2 =>
        let d : Option Char :=
          if e = 'n' then some '\n'
          else if e = 't' then some '\t'
          else if e = 'r' then some '\r'
          else if e = '"' then some '"'
          else if e = '\\' then some '\\'
          else if e = '/' then some '/'
          else none
        match d with
        | none => none
        | some dc =>
          match readStrBody fuel cs2 with
          | some (out, rest) => some (dc :: out, rest)
          | none => none
    else
      match readStrBody fuel cs with
      | some (out, rest) => some (c :: out, rest)
      | none => none

/-- Splits a leading run of decimal digits from the input. -/
def takeDigits : List Char → (List Char × List Char)
  | [] => ([], [])
  | c :: cs =>
    if c.isDigit then
      let p := takeDigits cs
      (c :: p.1, p.2)
    else ([], c :: cs)

/-- Numeric value of a digit run. -/
def digitsToNat : List Char → Nat
  | [] => 0
  | c :: cs => digitsToNat cs + (c.toNat - '0'.toNat) * 10 ^ cs.length

mutual

/-- Recursive-descent JSON value reader (models Python json.loads on the
fragment the repository uses), fuelled for structural termination. -/
def readVal : Nat → List Char → Option (Json × List Char)
  | 0, _ => none
  | fuel + 1, input =>
    match skipWs input with
    | [] => none
    | c :: cs =>
      if c = lbrace then
        match skipWs cs with
        | d :: ds => if d = rbrace then some (Json.obj [], ds) else readMembers fuel (d :: ds)
        | [] => none
      else if c = '[' then
        match skipWs cs with
        | d :: ds => if d = ']' then some (Json.arr [], ds) else readElems fuel (d :: ds)
        | [] => none
      else if c = '"' then
        match readStrBody (fuel + 1) cs with
        | some (body, rest) => some (Json.str (String.mk body), rest)
        | none => none
      else if c = 't' then
        match cs with
        | 'r' :: 'u' :: 'e' :: rest => some (Json.bool true, rest)
        | _ => none
      else if c = 'f' then
        match cs with
        | 'a' :: 'l' :: 's' :: 'e' :: rest => some (Json.bool false, rest)
        | _ => none
      else if c = 'n' then
        match cs with
        | 'u' :: 'l' :: 'l' :: rest => some (Json.null, rest)
        | _ => none
      else if c = '-' then
        match takeDigits cs with
        | ([], _) => none
        | (ds, rest) => some (Json.num (-(Int.ofNat (digitsToNat ds))), rest)
      else if c.isDigit then
        match takeDigits (c :: cs) with
        | ([], _) => none
        | (ds, rest) => some (Json.num (Int.ofNat (digitsToNat ds)), rest)
      else none

/-- Reads the members of a non-empty JSON object, positioned at the first key. -/
def readMembers : Nat → List Char → Option (Json × List Char)
  | 0, _ => none
  | fuel + 1, input =>
    match skipWs input with
    | c :: cs =>
      if c = '"' then
        match readStrBody (fuel + 1) cs with
        | some (keyChars, afterKey) =>
          match skipWs afterKey with
          | ':' :: afterColon =>
            match readVal fuel afterColon with
            | some (v, afterVal) =>
              match skipWs afterVal with
              | ',' :: afterComma =>
                match readMembers fuel afterComma with
                | some (Json.obj ms, rest) => some (Json.obj ((String.mk keyChars, v) :: ms), rest)
                | _ => none
              | d :: ds =>
                if d = rbrace then some (Json.obj [(String.mk keyChars, v)], ds) else none
              | [] => none
            | none => none
          | _ => none
        | none => none
      else none
    | [] => none

/-- Reads the elements of a non-empty JSON array, positioned at the first
element. -/
def readElems : Nat → List Char → Option (Json × List Char)
  | 0, _ => none
  | fuel + 1, input =>
    match readVal fuel input with
    | some (v, afterVal) =>
      match skipWs afterVal with
      | ',' :: afterComma =>
        match readElems fuel afterComma with
        | some (Json.arr xs, rest) => some (Json.arr (v :: xs), rest)
        | _ => none
      | ']' :: rest => some (Json.arr [v], rest)
      | _ => none
    | none => none

end

/-- Models Python json.loads on the repository's JSON fragment: some value on
success, none where json.loads raises JSONDecodeError (trailing garbage
included). -/
def jsonLoads (s : String) : Option Json :=
  match readVal (3 * (s.length + 2)) s.data with
  | some (v, rest) => if skipWs rest = [] then some v else none
  | none => none

/-- String of n spaces. -/
def spaces (n : Nat) : String := String.mk (List.replicate n ' ')

/-- Escapes one character for a JSON string literal (the fragment used by the
repository's payloads). -/
def escChar (c : Char) : String :=
  if c = '"' then "\\\""
  else if c = '\\' then "\\\\"
  else if c = '\n' then "\\n"
  else if c = '\t' then "\\t"
  else if c = '\r' then "\\r"
  else String.mk [c]

/-- JSON string literal rendering. -/
def quoteStr (s : String) : String :=
  "\"" ++ String.join (s.data.map escChar) ++ "\""

mutual

/-- Models Python json.dumps(v, indent=2) at member-indentation level ind,
fuelled for structural termination (callers pass a fuel bound exceeding the
value's depth; parsed values are depth-bounded by their parse fuel). -/
def dumpsInd : Nat → Nat → Json → String
  | 0, _, _ => ""
  | _ + 1, _, Json.null => "null"
  | _ + 1, _, Json.bool true => "true"
  | _ + 1, _, Json.bool false => "false"
  | _ + 1, _, Json.num n => toString n
  | _ + 1, _, Json.str s => quoteStr s
  | _ + 1, _, Json.arr [] => "[]"
  | fuel + 1, ind, Json.arr (x :: xs) =>
    "[\n" ++ dumpsElems fuel (ind + 2) (x :: xs) ++ "\n" ++ spaces ind ++ "]"
  | _ + 1, _, Json.obj [] => String.mk [lbrace, rbrace]
  | fuel + 1, ind, Json.obj (m :: ms) =>
    String.mk [lbrace] ++ "\n" ++ dumpsMembers fuel (ind + 2) (m :: ms) ++ "\n"
      ++ spaces ind ++ String.mk [rbrace]

/-- Renders array elements at the given indentation, comma-and-newline
separated. -/
def dumpsElems : Nat → Nat → List Json → String
  | 0, _, _ => ""
  | _ + 1, _, [] => ""
  | fuel + 1, ind, [x] => spaces ind ++ dumpsInd fuel ind x
  | fuel + 1, ind, x :: y :: xs =>
    spaces ind ++ dumpsInd fuel ind x ++ ",\n" ++ dumpsElems fuel ind (y :: xs)

/-- Renders object members at the given indentation, comma-and-newline
separated. -/
def dumpsMembers : Nat → Nat → List (String × Json) → String
  | 0, _, _ => ""
  | _ + 1, _, [] => ""
  | fuel + 1, ind, [kv] => spaces ind ++ quoteStr kv.1 ++ ": " ++ dumpsInd fuel ind kv.2
  | fuel + 1, ind, kv :: m :: ms =>
    spaces ind ++ quoteStr kv.1 ++ ": " ++ dumpsInd fuel ind kv.2 ++ ",\n"
      ++ dumpsMembers fuel ind (m :: ms)

end

/-- Fuel bound used when pretty-printing a value parsed from raw text: the
parse fuel bounds the parsed value's depth, so this always suffices. -/
def dumpsFuelFor (raw : String) : Nat := 3 * (raw.length + 2) + 1

/-- Context Compiler, from src/backend/api/ai_service.py json_to_str
(lines 19-44).  The filesystem is the collaborator fs : path to raw file text
(none models FileNotFoundError or any other read failure).  On a successful
read the raw text goes through json.load then json.dumps(data, indent=2) and
is appended as  path ++ ":\n" ++ pretty ++ "\n--\n" ; the except branches of
the source are bare f-string expressions, i.e. no-ops, so a failed document
appends nothing and the loop continues with the next path. -/
def json_to_str (fs : String → Option String) : List String → String
  | [] => ""
  | f :: rest =>
    (match fs f with
      | none => ""
      | some raw =>
        match jsonLoads raw with
        | none => ""
        | some data => f ++ ":\n" ++ dumpsInd (dumpsFuelFor raw) 0 data ++ "\n--\n")
      ++ json_to_str fs rest

/-- The compiled block a single successfully-read document contributes to the
Context Compiler's output (none when the read or the parse fails). -/
def compiledBlock (fs : String → Option String) (f : String) : Option String :=
  match fs f with
  | none => none
  | some raw =>
    match jsonLoads raw with
    | none => none
    | some data => some (f ++ ":\n" ++ dumpsInd (dumpsFuelFor raw) 0 data ++ "\n--\n")

/-- Concatenation of a list of strings in order. -/
def concatAll : List String → String
  | [] => ""
  | s :: rest => s ++ concatAll rest

/-- Result of a Python call in the embedding: normal return or a raised
exception (identified by its class name). -/
inductive PyResult (A : Type) where
  | ret (val : A) : PyResult A
  | exn (name : String) : PyResult A
deriving DecidableEq

/-- Outcome of one attempt at the generation call site
(MODEL_NAME.generate_content(...) in ai_generation_service.py).  The external
generation capability is nondeterministic, so the call site is an oracle
parameter indexed by the attempt number: ok models a returned response.text,
exn models a raised transport/model exception.  In the source as written the
attribute access itself raises, see callOnStrModelName below. -/
inductive CallResult where
  | ok (text : String) : CallResult
  | exn (name : String) : CallResult
deriving DecidableEq

/-- Behaviour of the time.sleep call sites.  The source begins with
"from datetime import time", so time is the datetime.time class and
time.sleep(delay) raises AttributeError; raisesAttr is the faithful
behaviour, works models the behaviour the docstrings document
("Retrying in ... seconds"). -/
inductive SleepB where
  | works : SleepB
  | raisesAttr : SleepB
deriving DecidableEq

/-- One time.sleep(delay) call under the chosen sleep behaviour. -/
def sleepPy : SleepB → PyResult Unit
  | SleepB.works => PyResult.ret ()
  | SleepB.raisesAttr => PyResult.exn "AttributeError"

/-- Observable trace of one run of the retry loop: its result (some text,
None, or a raised exception), how many attempts entered the call site, and
the durations of the sleeps performed. -/
structure LoopTrace where
  result : PyResult (Option String)
  calls : Nat
  sleeps : List Nat
deriving DecidableEq

/-- The retry loop shared verbatim by _generate_report_content (lines 112-230)
and _add_risks (lines 255-354) of ai_generation_service.py, recursing on the
remaining attempts with the current retry_count:
while retry_count < max_retries: call; on a raised call exception the except
handler increments retry_count and sleeps; on empty response.text it
increments and sleeps; otherwise json.loads(response.text) is attempted -
success returns response.text unchanged, JSONDecodeError increments and
sleeps; falling out of the loop returns None.  A sleep that itself raises
(the faithful datetime.time behaviour) escapes the function: in the
empty-text and JSONDecodeError branches the first AttributeError is caught by
the outer except handler, whose own time.sleep then raises uncaught. -/
def retryLoop (call : Nat → CallResult) (sleep : SleepB) (delay : Nat) :
    Nat → Nat → LoopTrace
  | 0, _ => { result := PyResult.ret none, calls := 0, sleeps := [] }
  | remaining + 1, count =>
    match call count with
    | CallResult.exn _ =>
      match sleepPy sleep with
      | PyResult.exn n => { result := PyResult.exn n, calls := 1, sleeps := [] }
      | PyResult.ret _ =>
        let t := retryLoop call sleep delay remaining (count + 1)
        { result := t.result, calls := t.calls + 1, sleeps := delay :: t.sleeps }
    | CallResult.ok text =>
      if text = "" then
        match sleepPy sleep with
        | PyResult.exn n => { result := PyResult.exn n, calls := 1, sleeps := [] }
        | PyResult.ret _ =>
          let t := retryLoop call sleep delay remaining (count + 1)
          { result := t.result, calls := t.calls + 1, sleeps := delay :: t.sleeps }
      else
        match jsonLoads text with
        | some _ => { result := PyResult.ret (some text), calls := 1, sleeps := [] }
        | none =>
          match sleepPy sleep with
          | PyResult.exn n => { result := PyResult.exn n, calls := 1, sleeps := [] }
          | PyResult.ret _ =>
            let t := retryLoop call sleep delay remaining (count + 1)
            { result := t.result, calls := t.calls + 1, sleeps := delay :: t.sleeps }

/-- The generation client _generate_report_content of ai_generation_service.py
(lines 88-230).  Before the loop it opens ../assets/report_template/
test_report.tex with no surrounding try, so a missing template raises
FileNotFoundError out of the function; fsTemplate is that file's content.
The prompt, context, example and schema only feed the external capability and
are absorbed into the call oracle.  Defaults: max_retries=4, delay=2. -/
def generate_report_content (fsTemplate : Option String) (call : Nat → CallResult)
    (sleep : SleepB) (maxRetries : Nat := 4) (delay : Nat := 2) : LoopTrace :=
  match fsTemplate with
  | none => { result := PyResult.exn "FileNotFoundError", calls := 0, sleeps := [] }
  | some _ => retryLoop call sleep delay maxRetries 0

/-- The risk-stage client _add_risks of ai_generation_service.py
(lines 232-354): identical loop, its own template file
(../assets/risk_template/context.tex, again opened outside any try) and its
own call oracle.  currentRisks is serialized with json.dumps into the example
text (line 253), which reaches the capability only as prompt material; the
client itself never filters the response against it. -/
def add_risks (fsTemplate : Option String) (currentRisks : Json)
    (call : Nat → CallResult) (sleep : SleepB)
    (maxRetries : Nat := 4) (delay : Nat := 2) : LoopTrace :=
  match fsTemplate, currentRisks with
  | none, _ => { result := PyResult.exn "FileNotFoundError", calls := 0, sleeps := [] }
  | some _, _ => retryLoop call sleep delay maxRetries 0

/-- The call site exactly as the source writes it: MODEL_NAME is the plain
string 'gemini-2.5-flash' (line 22), and a Python str has no generate_content
attribute, so every attempt raises AttributeError before any capability is
reached. -/
def callOnStrModelName : Nat → CallResult := fun _ => CallResult.exn "AttributeError"

/-- _generate_report_content with both call site and sleep as the source has
them (string MODEL_NAME, datetime.time sleep). -/
def generate_report_content_faithful (fsTemplate : Option String)
    (maxRetries : Nat := 4) (delay : Nat := 2) : LoopTrace :=
  generate_report_content fsTemplate callOnStrModelName SleepB.raisesAttr maxRetries delay

/-- The earlier draft generate_report_content of src/backend/api/ai_service.py
(lines 62-117): no loop at all - one call; a non-empty response.text is
returned with no validity check, an empty one falls through to return None,
and a raised call exception reaches an except handler that sleeps (faithfully
raising AttributeError) and then returns None. -/
def backend_generate_report_content (call : Nat → CallResult) (sleep : SleepB) :
    PyResult (Option String) × Nat :=
  match call 0 with
  | CallResult.ok text =>
    if text = "" then (PyResult.ret none, 1) else (PyResult.ret (some text), 1)
  | CallResult.exn _ =>
    match sleepPy sleep with
    | PyResult.exn n => (PyResult.exn n, 1)
    | PyResult.ret _ => (PyResult.ret none, 1)

/-- Organization row (api/models.py lines 30-47); only the fields the pipeline
touches are carried. -/
structure Organization where
  organizationId : Nat
  orgName : String
deriving DecidableEq

/-- User row (api/models.py lines 50-88); only identity is needed here. -/
structure UserRow where
  userId : Nat
deriving DecidableEq

/-- Report row (api/models.py lines 90-113): started is set on insert,
completed is nullable (blank=True, null=True), report_text is the JSON
payload. -/
structure ReportRow where
  reportId : Nat
  userCreated : Nat
  organizationId : Nat
  reportName : String
  completed : Option Nat
  reportText : Json

/-- Risk row (api/models.py lines 115-146).  The generated fields arrive as
whatever JSON values risk_item.get returned (None when absent);
affected_elements is stored as the comma-joined text the service builds. -/
structure RiskRow where
  reportId : Nat
  organizationId : Nat
  riskName : Option Json
  overview : Option Json
  recommendations : Option Json
  severity : Option Json
  affectedElements : String
  isArchived : Bool

/-- The persistence collaborator's visible state: the queryable rows. -/
structure DB where
  reports : List ReportRow
  risks : List RiskRow

/-- Models ", ".join(risk_item.get('affected_elements', [])) (line 412):
joining succeeds only on a list of strings; a non-list or a list with a
non-string element raises TypeError. -/
def joinAffected : Json → PyResult String
  | Json.arr xs =>
    let rec go : List Json → Option (List String)
      | [] => some []
      | Json.str s :: rest =>
        match go rest with
        | some ss => some (s :: ss)
        | none => none
      | _ :: _ => none
    match go xs with
    | some ss => PyResult.ret (String.intercalate ", " ss)
    | none => PyResult.exn "TypeError"
  | _ => PyResult.exn "TypeError"

/-- Builds the Risk row the service inserts for one risk_item
(lines 403-413): each field via risk_item.get (None when the key is absent);
iterating a non-dict item makes the subsequent .get raise AttributeError. -/
def riskRowOf (reportId orgId : Nat) (item : Json) : PyResult RiskRow :=
  match item with
  | Json.obj fields =>
    match joinAffected ((lookupLast fields "affected_elements").getD (Json.arr [])) with
    | PyResult.exn e => PyResult.exn e
    | PyResult.ret ae =>
      PyResult.ret
        { reportId := reportId
          organizationId := orgId
          riskName := lookupLast fields "risk_name"
          overview := lookupLast fields "overview"
          recommendations := lookupLast fields "recommendations"
          severity := lookupLast fields "severity"
          affectedElements := ae
          isArchived := false }
  | _ => PyResult.exn "AttributeError"

/-- Models risks_data.get('vulnerabilities', []) followed by the for loop's
iteration (line 403): a missing key iterates the default empty list; an array
iterates its items; an empty string or empty dict iterates nothing; a
non-empty string or dict would hand a non-dict element to risk_item.get
(AttributeError); numbers, booleans and None are not iterable (TypeError);
calling .get on a non-dict risks_data raises AttributeError. -/
def vulnerabilityItems : Json → PyResult (List Json)
  | Json.obj fields =>
    match lookupLast fields "vulnerabilities" with
    | none => PyResult.ret []
    | some (Json.arr xs) => PyResult.ret xs
    | some (Json.str s) =>
      if s = "" then PyResult.ret [] else PyResult.exn "AttributeError"
    | some (Json.obj []) => PyResult.ret []
    | some (Json.obj (_ :: _)) => PyResult.exn "AttributeError"
    | some _ => PyResult.exn "TypeError"
  | _ => PyResult.exn "AttributeError"

/-- Inserts the reconciled risks one by one (the for loop at lines 403-413).
insertFails models the persistence collaborator rejecting the i-th insertion
of this invocation (IntegrityError and the like); the first failure raises
out of the loop. -/
def insertRisks (db : DB) (reportId orgId : Nat) (insertFails : Nat → Bool) :
    List Json → Nat → PyResult DB
  | [], _ => PyResult.ret db
  | item :: rest, i =>
    match riskRowOf reportId orgId item with
    | PyResult.exn e => PyResult.exn e
    | PyResult.ret row =>
      if insertFails i then PyResult.exn "DatabaseError"
      else insertRisks { db with risks := db.risks ++ [row] } reportId orgId insertFails rest (i + 1)

/-- Ambient state of one pipeline invocation: the database before the run, the
looked-up Organization and User (none models DoesNotExist; the source's user
lookup User.objects.get(user_id=User.user_id) misuses the class attribute, but
either way a failed lookup lands in an except branch), the clock, and the
persistence collaborator's insertion behaviour. -/
structure PipelineEnv where
  db : DB
  org : Option Organization
  user : Option UserRow
  now : Nat
  today : String
  insertFails : Nat → Bool

/-- The Report row that Report.objects.create builds inside the transaction
(lines 388-394): derived name, completed stamped with timezone.now() at
creation, the parsed payload attached.  The fresh primary key is modelled as
the current Report-table size. -/
def newReportRow (env : PipelineEnv) (org : Organization) (user : UserRow)
    (reportData : Json) : ReportRow :=
  { reportId := env.db.reports.length
    userCreated := user.userId
    organizationId := org.organizationId
    reportName := "Security Assessment - " ++ org.orgName ++ " - " ++ env.today
    completed := some env.now
    reportText := reportData }

/-- The database as seen inside the transaction once the Report row has been
created. -/
def dbWithReport (env : PipelineEnv) (org : Organization) (user : UserRow)
    (reportData : Json) : DB :=
  { env.db with reports := env.db.reports ++ [newReportRow env org user reportData] }

/-- The Persistence Coordinator ai_generation_service of
ai_generation_service.py (lines 356-425), composed with the two generation
clients it calls with their default budgets (lines 371 and 397).
Control flow, faithfully:
- _generate_report_content is called OUTSIDE the try, so if it raises the
  service raises (db untouched);
- a falsy report string returns False;
- inside the try: json.loads, then the two lookups (DoesNotExist prints and
  falls to return False);
- transaction.atomic wraps: Report.objects.create with
  completed=timezone.now() and the derived name, then _add_risks, then - only
  if its result is truthy - json.loads and the risk-insert loop.  Any
  exception inside the block aborts it, the rollback restores the prior db,
  the outer except prints, and the service returns False.  A falsy _add_risks
  result skips risk insertion entirely and the block commits: the service
  prints success and returns True with the report persisted and no risks. -/
def ai_generation_service (env : PipelineEnv)
    (fsReportTemplate fsRiskTemplate : Option String) (currentRisks : Json)
    (callReport callRisk : Nat → CallResult) (sleep : SleepB) :
    PyResult Bool × DB :=
  match (generate_report_content fsReportTemplate callReport sleep).result with
  | PyResult.exn n => (PyResult.exn n, env.db)
  | PyResult.ret none => (PyResult.ret false, env.db)
  | PyResult.ret (some s) =>
    if s = "" then (PyResult.ret false, env.db)
    else
      match jsonLoads s with
      | none => (PyResult.ret false, env.db)
      | some reportData =>
        match env.org with
        | none => (PyResult.ret false, env.db)
        | some org =>
          match env.user with
          | none => (PyResult.ret false, env.db)
          | some user =>
            match (add_risks fsRiskTemplate currentRisks callRisk sleep).result with
            | PyResult.exn _ => (PyResult.ret false, env.db)
            | PyResult.ret none => (PyResult.ret true, dbWithReport env org user reportData)
            | PyResult.ret (some rs) =>
              if rs = "" then (PyResult.ret true, dbWithReport env org user reportData)
              else
                match jsonLoads rs with
                | none => (PyResult.ret false, env.db)
                | some risksData =>
                  match vulnerabilityItems risksData with
                  | PyResult.exn _ => (PyResult.ret false, env.db)
                  | PyResult.ret items =>
                    match insertRisks (dbWithReport env org user reportData)
                        (newReportRow env org user reportData).reportId
                        org.organizationId env.insertFails items 0 with
                    | PyResult.exn _ => (PyResult.ret false, env.db)
                    | PyResult.ret db2 => (PyResult.ret true, db2)

/-- Outcome of the module-level credential configuration: either genai is
configured with some key (and an error message may have been written to
stderr), or an exception escaped module initialization. -/
inductive InitOutcome where
  | configured (apiKey : String) (wroteStderr : Bool) : InitOutcome
  | raised (name : String) : InitOutcome
deriving DecidableEq

/-- Module initialization of ai_generation_service.py lines 13-19 (the backend
draft, ai_service.py lines 11-17, is identical): os.environ["GEMINI_API_KEY"]
raises KeyError when the variable is absent; the except handler writes to
stderr and configures genai with the literal placeholder key, so
initialization always completes. -/
def configure_credentials (env : String → Option String) : InitOutcome :=
  match env "GEMINI_API_KEY" with
  | some key => InitOutcome.configured key false
  | none => InitOutcome.configured "placeholder_key" true

/-- The read-only field set of ReportSerializer (api/serializers.py line 56);
with fields = '__all__' every other model field, completed included, is
writable through the REST update actions of ReportViewSet (a ModelViewSet,
api/views.py lines 33-48). -/
def reportReadOnlyFields : List String :=
  ["report_id", "date_created", "user_created_name", "organization_name"]

/-- Whether a Report field is writable through the serializer. -/
def reportFieldWritable (f : String) : Bool :=
  ¬ f ∈ reportReadOnlyFields

/-- A REST update (PUT/PATCH) carrying a value for completed, as validated by
ReportSerializer and saved by ModelViewSet.update: the field is applied
exactly when it is writable. -/
def restUpdateCompleted (r : ReportRow) (v : Option Nat) : ReportRow :=
  if reportFieldWritable "completed" then { r with completed := v } else r

/-- Schema conformance in the sense of the specification sentence under
check: the text parses as JSON to a top-level object carrying every required
top-level key.  (Spec-side definition, to be compared with what the client
actually enforces.) -/
def specSchemaConformant (s : String) (required : List String) : Bool :=
  match jsonLoads s with
  | some (Json.obj fields) => required.all (fun k => (lookupLast fields k).isSome)
  | _ => false

/-- The required top-level keys of the report-stage response_schema
(ai_generation_service.py line 191). -/
def reportRequiredKeys : List String := ["report"]

/-- The required top-level keys of the risk-stage response_schema
(ai_generation_service.py line 315). -/
def riskRequiredKeys : List String := ["vulnerabilities"]

/-- The risk names carried by a risk-stage response text: parse, read the
vulnerabilities array, keep each item's string risk_name.  (Statement-side
extraction for reasoning about reconciliation.) -/
def riskNamesOfText (s : String) : List String :=
  match jsonLoads s with
  | some (Json.obj fields) =>
    match lookupLast fields "vulnerabilities" with
    | some (Json.arr items) =>
      items.filterMap (fun item =>
        match item with
        | Json.obj fs =>
          match lookupLast fs "risk_name" with
          | some (Json.str n) => some n
          | _ => none
        | _ => none)
    | _ => []
  | _ => []

/-- The risk names of an existing-risk set, given as a JSON array of risk
objects. -/
def existingRiskNames : Json → List String
  | Json.arr items =>
    items.filterMap (fun item =>
      match item with
      | Json.obj fs =>
        match lookupLast fs "risk_name" with
        | some (Json.str n) => some n
        | _ => none
      | _ => none)
  | _ => []

/-- Whether module initialization ended in a raised (fail-fast) configuration
error. -/
def initFailsFast : InitOutcome → Bool
  | InitOutcome.raised _ => true
  | InitOutcome.configured _ _ => false

/-- A structurally valid report-stage response: parses and carries the
required top-level key "report". -/
def validReport : String := "\x7b\"report\": []\x7d"

/-- Capability scenario of the spec's Generation Client test: empty text on
attempts 1 and 2, valid structured text on attempt 3. -/
def c2call : Nat → CallResult :=
  fun n => if n < 2 then CallResult.ok "" else CallResult.ok validReport

/-- A response that parses as JSON but lacks the required top-level key
"report". -/
def c1text : String := "\x7b\"foo\": 1\x7d"

/-- Capability returning the missing-key response on every attempt. -/
def c1call : Nat → CallResult := fun _ => CallResult.ok c1text

/-- The existing-risk set of the spec's Risk Reconciler example. -/
def existingRisks : Json :=
  Json.arr [Json.obj [("risk_name", Json.str "Open RDP Port")]]

/-- A risk-stage response that reintroduces the already-known risk
"Open RDP Port" alongside the new "Missing DMARC". -/
def c6text : String :=
  "\x7b\"vulnerabilities\": [\x7b\"risk_name\": \"Open RDP Port\"\x7d, \x7b\"risk_name\": \"Missing DMARC\"\x7d]\x7d"

/-- Capability returning the duplicate-carrying risk list on every attempt. -/
def c6call : Nat → CallResult := fun _ => CallResult.ok c6text

/-- Concrete organization for pipeline scenarios. -/
def org1 : Organization := { organizationId := 7, orgName := "Valier" }

/-- Pipeline environment: empty database, both lookups succeed, no insertion
failures. -/
def env0 : PipelineEnv :=
  { db := { reports := [], risks := [] }
    org := some org1
    user := some { userId := 3 }
    now := 100
    today := "2025-07-18"
    insertFails := fun _ => false }

/-- Same environment, but the persistence collaborator rejects every risk
insertion of the invocation. -/
def envFailIns : PipelineEnv := { env0 with insertFails := fun _ => true }

/-- Report-stage capability that answers validly on the first attempt. -/
def callROk : Nat → CallResult := fun _ => CallResult.ok validReport

/-- Risk-stage capability that answers with empty text on every attempt, so
the risk stage exhausts its retries. -/
def callKEmpty : Nat → CallResult := fun _ => CallResult.ok ""

/-- Risk-stage capability answering with a valid two-risk list on the first
attempt. -/
def callKOk : Nat → CallResult := fun _ => CallResult.ok c6text

/-- Concrete filesystem for Context Compiler scenarios: ok.json reads and
parses, missing.json does not exist. -/
def fsW : String → Option String :=
  fun f => if f = "ok.json" then some "\x7b\"key1\": \"value1\"\x7d" else none

/-- Filesystem on which every read fails. -/
def fsNone : String → Option String := fun _ => none

/-- A Report row whose completed timestamp has been set. -/
def sampleReport : ReportRow :=
  { reportId := 1
    userCreated := 3
    organizationId := 7
    reportName := "Security Assessment - Valier - 2025-07-18"
    completed := some 5
    reportText := Json.obj [] }

/-- Any text the retry loop returns came verbatim from some attempt's call,
is non-empty, and passes the loop's json.loads check - the loop enforces
nothing beyond that. -/
theorem retryLoop_ret_some (call : Nat → CallResult) (sleep : SleepB) (delay : Nat) :
    ∀ (fuel count : Nat) (s : String),
      (retryLoop call sleep delay fuel count).result = PyResult.ret (some s) →
      (∃ n, call n = CallResult.ok s) ∧ s ≠ "" ∧ (jsonLoads s).isSome := by
  intro fuel
  induction fuel with
  | zero =>
    intro count s h
    simp [retryLoop] at h
  | succ m ih =>
    intro count s h
    unfold retryLoop at h
    split at h
    · -- call raised
      split at h
      · simp at h
      · dsimp only at h
        exact ih (count + 1) s h
    · -- call returned text
      rename_i text heq
      split at h
      · -- empty text
        split at h
        · simp at h
        · dsimp only at h
          exact ih (count + 1) s h
      · -- non-empty text
        rename_i hne
        split at h
        · -- json.loads succeeded: the text is returned
          rename_i v hj
          simp only [PyResult.ret.injEq, Option.some.injEq] at h
          subst h
          exact ⟨⟨count, heq⟩, hne, by simp [hj]⟩
        · -- json.loads failed
          split at h
          · simp at h
          · dsimp only at h
            exact ih (count + 1) s h

/-- The Context Compiler's output is exactly the concatenation, in input
order, of the compiled blocks of the successfully-read documents. -/
theorem json_to_str_eq_concat (fs : String → Option String) :
    ∀ paths : List String,
      json_to_str fs paths = concatAll (paths.filterMap (compiledBlock fs)) := by
  intro paths
  induction paths with
  | nil => rfl
  | cons f rest ih =>
    show (match fs f with
      | none => ""
      | some raw =>
        match jsonLoads raw with
        | none => ""
        | some data => f ++ ":\n" ++ dumpsInd (dumpsFuelFor raw) 0 data ++ "\n--\n")
        ++ json_to_str fs rest = _
    cases hfs : fs f with
    | none =>
      simp only [List.filterMap_cons, compiledBlock, hfs]
      exact ih
    | some raw =>
      cases hj : jsonLoads raw with
      | none =>
        simp only [List.filterMap_cons, compiledBlock, hfs, hj]
        exact ih
      | some data =>
        simp only [List.filterMap_cons, compiledBlock, hfs, hj, concatAll]
        rw [ih]

/-- The risk-insert loop only appends Risk rows: the Report table is
untouched by a successful pass. -/
theorem insertRisks_reports (rid oid : Nat) (fail : Nat → Bool) :
    ∀ (items : List Json) (db : DB) (i : Nat) (db2 : DB),
      insertRisks db rid oid fail items i = PyResult.ret db2 → db2.reports = db.reports := by
  intro items
  induction items with
  | nil =>
    intro db i db2 h
    simp only [insertRisks, PyResult.ret.injEq] at h
    rw [← h]
  | cons item rest ih =>
    intro db i db2 h
    unfold insertRisks at h
    split at h
    · exact absurd h (by simp)
    · split at h
      · exact absurd h (by simp)
      · rename_i row hrow hfail
        have := ih { db with risks := db.risks ++ [row] } (i + 1) db2 h
        simpa using this

/-- C1, counterexample.  The claim says a response that parses as JSON but
lacks a required top-level key is rejected and consumes a retry attempt.  At
the concrete capability response c1text (valid JSON, no "report" key) the
client returns the text on attempt 1 - it is neither rejected nor schema
conformant. -/
theorem C1_counterexample :
    generate_report_content (some "T") c1call SleepB.raisesAttr 4 2
      = { result := PyResult.ret (some c1text), calls := 1, sleeps := [] }
    ∧ specSchemaConformant c1text reportRequiredKeys = false := by
  exact ⟨rfl, rfl⟩

/-- C1 as amended: the generation client's structural check is json.loads
success only - any non-None value it returns is verbatim capability text that
is non-empty and parses as JSON; required top-level keys are not checked
client-side (they are only sent to the capability inside the
response_schema). -/
theorem C1_amended_parse_only (fsT : Option String) (call : Nat → CallResult)
    (sleep : SleepB) (maxRetries delay : Nat) (s : String)
    (h : (generate_report_content fsT call sleep maxRetries delay).result
      = PyResult.ret (some s)) :
    (∃ n, call n = CallResult.ok s) ∧ s ≠ "" ∧ (jsonLoads s).isSome := by
  cases fsT with
  | none => simp [generate_report_content] at h
  | some t =>
    unfold generate_report_content at h
    exact retryLoop_ret_some call sleep delay maxRetries 0 s h

/-- Witness for the amended C1 at the concrete missing-key response. -/
theorem C1_amended_parse_only_witness :
    (∃ n, c1call n = CallResult.ok c1text) ∧ c1text ≠ "" ∧ (jsonLoads c1text).isSome :=
  C1_amended_parse_only (some "T") c1call SleepB.raisesAttr 4 2 c1text rfl

/-- C2, code bug.  The claim (and the source's own docstring, "Retries on API
error, or empty response, up to max_retries") expects: empty on attempts 1-2,
valid on attempt 3, max_retries=4, delay=2 gives the attempt-3 text after
exactly 3 calls with a constant-delay sleep between attempts.  The faithful
code instead raises AttributeError during the first retry, because
"from datetime import time" makes time.sleep nonexistent - and with
MODEL_NAME the plain string 'gemini-2.5-flash' even the call site raises
before reaching any capability.  Conjuncts: (1) the faithful sleep crashes
the documented scenario after 1 call; (2) the fully faithful client (string
model and broken sleep) does the same; (3) under the documented sleep
behaviour the claim's numbers are exactly right; (4) the earlier backend
draft has no loop at all and gives None after 1 call. -/
theorem C2_code_raises_instead_of_retrying :
    generate_report_content (some "T") c2call SleepB.raisesAttr 4 2
      = { result := PyResult.exn "AttributeError", calls := 1, sleeps := [] }
    ∧ generate_report_content_faithful (some "T") 4 2
      = { result := PyResult.exn "AttributeError", calls := 1, sleeps := [] }
    ∧ generate_report_content (some "T") c2call SleepB.works 4 2
      = { result := PyResult.ret (some validReport), calls := 3, sleeps := [2, 2] }
    ∧ backend_generate_report_content c2call SleepB.works = (PyResult.ret none, 1) := by
  exact ⟨rfl, rfl, rfl, rfl⟩

/-- C4, code bug.  The claim (and the docstring's "JSON | None") says
_generate_report_content never raises; faithfully it always raises once any
attempt is made: with the template file missing the pre-loop open (outside
any try) raises FileNotFoundError, and with it present the first attempt
raises AttributeError (string MODEL_NAME; and the except handler's own
time.sleep, datetime.time.sleep, raises uncaught). -/
theorem C4_always_raises (fsT : Option String) (delay : Nat) :
    ∃ e, (generate_report_content_faithful fsT 4 delay).result = PyResult.exn e := by
  cases fsT with
  | none => exact ⟨"FileNotFoundError", rfl⟩
  | some t => exact ⟨"AttributeError", rfl⟩

/-- C6, counterexample.  The claim says no risk already in the existing set is
ever reintroduced.  With existing risk "Open RDP Port", a capability response
listing "Open RDP Port" and "Missing DMARC" passes the client's only check
(json.loads) and is returned whole on attempt 1: the reconciled output
contains a risk of the existing set. -/
theorem C6_counterexample :
    (add_risks (some "C") existingRisks c6call SleepB.raisesAttr 4 2).result
      = PyResult.ret (some c6text)
    ∧ "Open RDP Port" ∈ riskNamesOfText c6text
    ∧ "Open RDP Port" ∈ existingRiskNames existingRisks := by
  refine ⟨rfl, ?_, ?_⟩
  · show "Open RDP Port" ∈ riskNamesOfText c6text
    decide
  · decide

/-- C6 as amended: the risk stage tolerates any existing set (empty included:
it is only serialized into the prompt) but performs no de-duplication
itself - every non-None result is verbatim capability text whose only
client-side check is parsing as JSON, so whether existing risks are
reintroduced is entirely up to the capability. -/
theorem C6_amended_no_filtering (fsT : Option String) (currentRisks : Json)
    (call : Nat → CallResult) (sleep : SleepB) (maxRetries delay : Nat) (s : String)
    (h : (add_risks fsT currentRisks call sleep maxRetries delay).result
      = PyResult.ret (some s)) :
    (∃ n, call n = CallResult.ok s) ∧ (jsonLoads s).isSome := by
  cases fsT with
  | none => simp [add_risks] at h
  | some t =>
    unfold add_risks at h
    have hmain := retryLoop_ret_some call sleep delay maxRetries 0 s h
    exact ⟨hmain.1, hmain.2.2⟩

/-- Witness for the amended C6, with an empty existing-risk set. -/
theorem C6_amended_no_filtering_witness :
    (∃ n, c6call n = CallResult.ok c6text) ∧ (jsonLoads c6text).isSome :=
  C6_amended_no_filtering (some "C") (Json.arr []) c6call SleepB.raisesAttr 4 2 c6text rfl

/-- C8, counterexample.  The claim says an absent credential makes
initialization fail fast with a named configuration error.  With no
GEMINI_API_KEY in the environment, module initialization instead completes,
configuring the literal placeholder key after writing a warning to stderr -
failure is deferred to the first generation call. -/
theorem C8_counterexample :
    configure_credentials (fun _ => none) = InitOutcome.configured "placeholder_key" true
    ∧ initFailsFast (configure_credentials (fun _ => none)) = false := by
  exact ⟨rfl, rfl⟩

/-- C8 as amended: when the credential is absent, initialization logs the
error and silently substitutes the placeholder key (the source comment:
calls will fail until a real key is provided). -/
theorem C8_amended_placeholder (env : String → Option String)
    (h : env "GEMINI_API_KEY" = none) :
    configure_credentials env = InitOutcome.configured "placeholder_key" true := by
  unfold configure_credentials
  rw [h]

/-- Witness for the amended C8 at the empty environment. -/
theorem C8_amended_placeholder_witness :
    configure_credentials (fun _ => none) = InitOutcome.configured "placeholder_key" true :=
  C8_amended_placeholder (fun _ => none) rfl

/-- C9, counterexample.  The claim says a non-null completed timestamp is
never set back to null.  completed is not among ReportSerializer's read-only
fields, so the ModelViewSet update actions accept a write to it: a PATCH
carrying completed=null clears a previously set timestamp. -/
theorem C9_counterexample :
    sampleReport.completed = some 5
    ∧ reportFieldWritable "completed" = true
    ∧ (restUpdateCompleted sampleReport none).completed = none := by
  exact ⟨rfl, by decide, rfl⟩

/-- C10.  When every input document fails to read or parse (and for the empty
list), the Context Compiler returns exactly the empty string: the except
branches of json_to_str are no-op f-string expressions, so failed documents
contribute nothing - no placeholder text reaches the output (matching
test_json_to_str_file_not_found and test_json_to_str_json_decode_error). -/
theorem C10_all_failures_yield_empty (fs : String → Option String)
    (paths : List String) (h : ∀ f ∈ paths, compiledBlock fs f = none) :
    json_to_str fs paths = "" := by
  rw [json_to_str_eq_concat fs paths]
  have hnil : paths.filterMap (compiledBlock fs) = [] := by
    rw [List.filterMap_eq_nil_iff]
    exact h
  rw [hnil]
  rfl

/-- Witness for C10: one missing document compiles to the empty string. -/
theorem C10_all_failures_yield_empty_witness :
    json_to_str fsNone ["missing.json"] = "" :=
  C10_all_failures_yield_empty fsNone ["missing.json"]
    (fun f _ => by simp [compiledBlock, fsNone])

/-- C7.  For every non-empty input list, the Context Compiler's output is
exactly the concatenation, in input order, of one compiled block per
successfully-read document, and each such block begins with that document's
identifier (so each successfully-read identifier heads its own block exactly
once, in input order); a missing or malformed document contributes no block
(its filterMap entry is none) and never disturbs the remaining documents. -/
theorem C7_identifier_blocks_in_order (fs : String → Option String)
    (paths : List String) (_hne : paths ≠ []) :
    json_to_str fs paths = concatAll (paths.filterMap (compiledBlock fs))
    ∧ ∀ f b, compiledBlock fs f = some b → ∃ tail, b = f ++ tail := by
  refine ⟨json_to_str_eq_concat fs paths, ?_⟩
  intro f b hb
  unfold compiledBlock at hb
  cases hfs : fs f with
  | none => rw [hfs] at hb; simp at hb
  | some raw =>
    simp only [hfs] at hb
    cases hj : jsonLoads raw with
    | none => simp [hj] at hb
    | some data =>
      simp only [hj, Option.some.injEq] at hb
      refine ⟨":\n" ++ dumpsInd (dumpsFuelFor raw) 0 data ++ "\n--\n", ?_⟩
      rw [← hb]
      simp [String.append_assoc]

/-- Witness for C7 on a concrete two-document list with one missing file. -/
theorem C7_identifier_blocks_in_order_witness :
    json_to_str fsW ["ok.json", "missing.json"]
      = concatAll ((["ok.json", "missing.json"]).filterMap (compiledBlock fsW)) :=
  (C7_identifier_blocks_in_order fsW ["ok.json", "missing.json"] (by decide)).1

/-- C3.  Roll-back atomicity of the Persistence Coordinator: every pipeline
invocation either returns success, or leaves the database exactly as it was -
in particular when any single risk insertion raises, the transaction aborts,
the Report row and every Risk row of the invocation vanish with it, and no
completed report from the invocation is stored.  The second conjunct runs the
concrete scenario: a valid report and risk list but a persistence
collaborator that rejects the risk insertions - the service returns False and
the database is untouched. -/
theorem C3_rollback_atomicity :
    (∀ (env : PipelineEnv) (fsT1 fsT2 : Option String) (cur : Json)
        (cR cK : Nat → CallResult) (sleep : SleepB),
      (ai_generation_service env fsT1 fsT2 cur cR cK sleep).1 = PyResult.ret true
      ∨ (ai_generation_service env fsT1 fsT2 cur cR cK sleep).2 = env.db)
    ∧ ai_generation_service envFailIns (some "T") (some "C") existingRisks
        callROk callKOk SleepB.works = (PyResult.ret false, envFailIns.db) := by
  constructor
  · intro env fsT1 fsT2 cur cR cK sleep
    unfold ai_generation_service
    repeat' split
    all_goals simp
  · rfl

/-- C5, counterexample.  The claim says a risk-stage retry exhaustion
surfaces a failure and persists nothing.  Concretely: the report stage
succeeds on attempt 1, the risk stage returns empty text on all 4 attempts
(retry exhaustion, _add_risks gives None) - yet the service commits the
Report (completed stamped) with zero risks and returns True. -/
theorem C5_counterexample :
    (ai_generation_service env0 (some "T") (some "C") existingRisks
        callROk callKEmpty SleepB.works).1 = PyResult.ret true
    ∧ add_risks (some "C") existingRisks callKEmpty SleepB.works 4 2
      = { result := PyResult.ret none, calls := 4, sleeps := [2, 2, 2, 2] }
    ∧ ((ai_generation_service env0 (some "T") (some "C") existingRisks
        callROk callKEmpty SleepB.works).2.reports.map (fun r => r.completed))
      = [some 100]
    ∧ (ai_generation_service env0 (some "T") (some "C") existingRisks
        callROk callKEmpty SleepB.works).2.risks = [] := by
  exact ⟨rfl, rfl, rfl, rfl⟩

/-- C5 as amended: a report-stage retry exhaustion (None from
_generate_report_content) makes the invocation return False with nothing
persisted; but a risk-stage retry exhaustion (None from _add_risks) commits
the Report with zero risks and returns True. -/
theorem C5_amended_stage_asymmetry :
    (∀ (env : PipelineEnv) (fsT1 fsT2 : Option String) (cur : Json)
        (cR cK : Nat → CallResult) (sleep : SleepB),
      (generate_report_content fsT1 cR sleep 4 2).result = PyResult.ret none →
      ai_generation_service env fsT1 fsT2 cur cR cK sleep = (PyResult.ret false, env.db))
    ∧ (∀ (env : PipelineEnv) (fsT1 fsT2 : Option String) (cur : Json)
        (cR cK : Nat → CallResult) (sleep : SleepB) (s : String) (rd : Json)
        (org : Organization) (user : UserRow),
      (generate_report_content fsT1 cR sleep 4 2).result = PyResult.ret (some s) →
      s ≠ "" →
      jsonLoads s = some rd →
      env.org = some org →
      env.user = some user →
      (add_risks fsT2 cur cK sleep 4 2).result = PyResult.ret none →
      ai_generation_service env fsT1 fsT2 cur cR cK sleep
        = (PyResult.ret true, dbWithReport env org user rd)) := by
  constructor
  · intro env fsT1 fsT2 cur cR cK sleep h1
    unfold ai_generation_service
    rw [h1]
  · intro env fsT1 fsT2 cur cR cK sleep s rd org user h1 hs hj ho hu h2
    unfold ai_generation_service
    simp only [h1, if_neg hs, hj, ho, hu, h2]

/-- Witness for the amended C5: part 1 at a report stage that exhausts its
retries on empty responses, part 2 at the risk-stage-exhaustion scenario of
the counterexample. -/
theorem C5_amended_stage_asymmetry_witness :
    ai_generation_service env0 (some "T") (some "C") existingRisks
        callKEmpty callKOk SleepB.works = (PyResult.ret false, env0.db)
    ∧ ai_generation_service env0 (some "T") (some "C") existingRisks
        callROk callKEmpty SleepB.works
      = (PyResult.ret true, dbWithReport env0 org1 { userId := 3 } (Json.obj [("report", Json.arr [])])) :=
  ⟨C5_amended_stage_asymmetry.1 env0 (some "T") (some "C") existingRisks
      callKEmpty callKOk SleepB.works rfl,
   C5_amended_stage_asymmetry.2 env0 (some "T") (some "C") existingRisks
      callROk callKEmpty SleepB.works validReport (Json.obj [("report", Json.arr [])])
      org1 { userId := 3 } rfl (by decide) rfl rfl rfl rfl⟩

/-- C9 as amended: within the generation pipeline the invariant does hold -
a pipeline invocation only ever appends Report rows, each freshly created row
carries completed = now (stamped inside the committing transaction), and no
pre-existing report's completed is touched; it is only the REST update path
(serializer-writable completed, see the counterexample) that can clear the
timestamp. -/
theorem C9_pipeline_never_clears_completed :
    ∀ (env : PipelineEnv) (fsT1 fsT2 : Option String) (cur : Json)
      (cR cK : Nat → CallResult) (sleep : SleepB),
    ∃ tail,
      (ai_generation_service env fsT1 fsT2 cur cR cK sleep).2.reports
        = env.db.reports ++ tail
      ∧ ∀ r ∈ tail, r.completed = some env.now := by
  intro env fsT1 fsT2 cur cR cK sleep
  unfold ai_generation_service
  split
  · exact ⟨[], by simp, by simp⟩
  · exact ⟨[], by simp, by simp⟩
  · split
    · exact ⟨[], by simp, by simp⟩
    · split
      · exact ⟨[], by simp, by simp⟩
      · rename_i rd hrd
        split
        · exact ⟨[], by simp, by simp⟩
        · rename_i org horg
          split
          · exact ⟨[], by simp, by simp⟩
          · rename_i user huser
            split
            · exact ⟨[], by simp, by simp⟩
            · refine ⟨[newReportRow env org user rd], by simp [dbWithReport], ?_⟩
              intro r hr
              rw [List.mem_singleton] at hr
              subst hr
              rfl
            · split
              · refine ⟨[newReportRow env org user rd], by simp [dbWithReport], ?_⟩
                intro r hr
                rw [List.mem_singleton] at hr
                subst hr
                rfl
              · split
                · exact ⟨[], by simp, by simp⟩
                · split
                  · exact ⟨[], by simp, by simp⟩
                  · split
                    · exact ⟨[], by simp, by simp⟩
                    · rename_i db2 heq
                      refine ⟨[newReportRow env org user rd], ?_, ?_⟩
                      · have hrep := insertRisks_reports
                          (newReportRow env org user rd).reportId org.organizationId
                          env.insertFails _ (dbWithReport env org user rd) 0 db2 heq
                        show db2.reports = env.db.reports ++ [newReportRow env org user rd]
                        rw [hrep]
                        simp [dbWithReport]
                      · intro r hr
                        rw [List.mem_singleton] at hr
                        subst hr
                        rfl

/-- Witness for C3 at the concrete insert-failure scenario. -/
theorem C3_rollback_atomicity_witness :
    (ai_generation_service envFailIns (some "T") (some "C") existingRisks
        callROk callKOk SleepB.works).1 = PyResult.ret true
    ∨ (ai_generation_service envFailIns (some "T") (some "C") existingRisks
        callROk callKOk SleepB.works).2 = envFailIns.db :=
  C3_rollback_atomicity.1 envFailIns (some "T") (some "C") existingRisks
    callROk callKOk SleepB.works

/-- Witness for the amended C9 at a concrete successful pipeline run. -/
theorem C9_pipeline_never_clears_completed_witness :
    ∃ tail,
      (ai_generation_service env0 (some "T") (some "C") existingRisks
          callROk callKOk SleepB.works).2.reports = env0.db.reports ++ tail
      ∧ ∀ r ∈ tail, r.completed = some env0.now :=
  C9_pipeline_never_clears_completed env0 (some "T") (some "C") existingRisks
    callROk callKOk SleepB.works
